import Mathlib

/-!
Shallow embedding of `src/lib/index.js` (http-graceful-shutdown).

The library installs signal handlers that run `shutdown`, tracks live
connections in a global `connections` table keyed by a monotonically
increasing `connectionCounter`, marks sockets idle/busy around each
request/response cycle, and on shutdown closes the listener, destroys
idle connections, and arms a forced-shutdown timer; finalization runs
an optional user callback and then exits the process with status 1.

The JavaScript event loop is modelled as an explicit state machine:
every externally observable occurrence (a termination signal, a server
`connection`/`request` event, a response `finish` event, a socket
`close` event, the `server.close` completion callback, the forced
timer firing, and the settlement of a promise returned by the user
callback) is an `Event`, and `step` is the dispatcher translated
handler-by-handler from the source.  `process.exit` halts the process:
once `exited` is set, no further handler runs, which the dispatcher
models by returning the state unchanged.
-/

namespace GS

/-- Outcome shape of the configured user callback (`options.callback`):
absent, synchronous return, or a returned promise that later resolves
or rejects. -/
inductive CallbackKind where
  | noCallback
  | syncCallback
  | asyncResolves
  | asyncRejects
deriving DecidableEq, Repr

/-- The caller-supplied `opts` object: each recognized option may be
absent (JavaScript `undefined`), in which case `_.defaults` fills it. -/
structure Opts where
  signals : Option String
  timeout : Option Nat
  development : Option Bool
  callback : CallbackKind
deriving DecidableEq, Repr

/-- The resolved `options` object after `_.defaults`. -/
structure Options where
  signals : String
  timeout : Nat
  development : Bool
  callback : CallbackKind
deriving DecidableEq, Repr

/-- Models `_.defaults(opts, { signals: 'SIGINT SIGTERM', timeout: 30000,
development: false })`: a present value wins, an absent one gets the
default. -/
def defaults (opts : Opts) : Options :=
  { signals := opts.signals.getD "SIGINT SIGTERM"
    timeout := opts.timeout.getD 30000
    development := opts.development.getD false
    callback := opts.callback }

/-- JavaScript `String.prototype.split` with a single-character
separator, over the character list: splits at every occurrence of the
separator, keeping empty segments.  `cur` accumulates the current
segment in reverse. -/
def splitChars (sep : Char) : List Char → List Char → List (List Char)
  | [], cur => [cur.reverse]
  | c :: rest, cur =>
      if c = sep then cur.reverse :: splitChars sep rest []
      else splitChars sep rest (c :: cur)

/-- Models `s.split(sep)` as a list of strings. -/
def jsSplit (s : String) (sep : Char) : List String :=
  (splitChars sep s.data []).map String.mk

/-- Models `options.signals.split(' ')` followed by the handler-registration
guard `if (signal && signal !== '')`: the list of signal names the
library subscribes to. -/
def subscribedSignals (options : Options) : List String :=
  (jsSplit options.signals ' ').filter (fun signal => signal ≠ "")

/-- A tracked socket: the `_isIdle` and `_connectionId` fields the
library tags onto each socket object. -/
structure Socket where
  _isIdle : Bool
  _connectionId : Nat
deriving DecidableEq, Repr

/-- Process/system state: the module-level mutables (`isShuttingDown`,
`connections`, `connectionCounter`), the pending asynchronous
completions (listener-close callback, forced timer, unsettled callback
promises), and instrumentation recording what happened (calls to
`server.close`, timer armings, drain executions, user-callback
invocations, `process.exit`, destroyed sockets, and the debug `counter`
of the most recent sweep). -/
structure SysState where
  isShuttingDown : Bool
  connections : List (Nat × Socket)
  connectionCounter : Nat
  /-- Set when `server.close` has been invoked and its completion callback not yet run. -/
  closeCallbackPending : Bool
  serverCloseCalls : Nat
  timerArmed : Bool
  timerArmCount : Nat
  /-- number of executions of the guarded drain block of `shutdown`. -/
  drainCount : Nat
  callbackExecutions : Nat
  /-- unsettled promises returned by the user callback; `true` will resolve, `false` will reject. -/
  pending : List Bool
  exited : Option Nat
  exitCount : Nat
  /-- each `socket.destroy()` performed by the library: `(_connectionId, _isIdle at that moment)`. -/
  destroyedLog : List (Nat × Bool)
  /-- the debug `counter` accumulated by the most recent shutdown sweep. -/
  lastSweepCounter : Nat
deriving DecidableEq, Repr

/-- Initial state: `isShuttingDown = false`, empty registry, counter 0,
nothing pending, process alive. -/
def initState : SysState :=
  { isShuttingDown := false
    connections := []
    connectionCounter := 0
    closeCallbackPending := false
    serverCloseCalls := 0
    timerArmed := false
    timerArmCount := 0
    drainCount := 0
    callbackExecutions := 0
    pending := []
    exited := none
    exitCount := 0
    destroyedLog := []
    lastSweepCounter := 0 }

/-- Models `function exit(err) { process.exit(1); ... }`: the argument is
ignored and the process exits with status 1. -/
def exitProcess (s : SysState) : SysState :=
  { s with exited := some 1, exitCount := s.exitCount + 1 }

/-- Models `function destroy(socket) { if (socket._isIdle && isShuttingDown)
{ socket.destroy(); delete connections[socket._connectionId]; } }` -/
def destroy (s : SysState) (socket : Socket) : SysState :=
  if socket._isIdle && s.isShuttingDown then
    { s with
      connections := s.connections.filter (fun e => e.1 ≠ socket._connectionId)
      destroyedLog := s.destroyedLog ++ [(socket._connectionId, socket._isIdle)] }
  else s

/-- Models `function handleCallbackThenExit()`: no callback or a synchronous
callback exits at once; a promise-returning callback registers
`then(exit, exit)` handlers and returns, the exit happening when the
promise settles. -/
def handleCallbackThenExit (options : Options) (s : SysState) : SysState :=
  match options.callback with
  | .noCallback => exitProcess s
  | .syncCallback =>
      exitProcess { s with callbackExecutions := s.callbackExecutions + 1 }
  | .asyncResolves =>
      { s with callbackExecutions := s.callbackExecutions + 1
               pending := s.pending ++ [true] }
  | .asyncRejects =>
      { s with callbackExecutions := s.callbackExecutions + 1
               pending := s.pending ++ [false] }

/-- One iteration of the sweep body `counter++; destroy(connections[key])`. -/
def sweepStep (acc : Nat × SysState) (e : Nat × Socket) : Nat × SysState :=
  (acc.1 + 1, destroy acc.2 e.2)

/-- The sweep over a snapshot of registry entries. -/
def sweepList (s : SysState) (l : List (Nat × Socket)) : Nat × SysState :=
  l.foldl sweepStep (0, s)

/-- Models `Object.keys(connections).forEach(function(key) { counter++;
destroy(connections[key]); })`: returns the debug `counter` and the
state after the sweep. -/
def sweep (s : SysState) : Nat × SysState :=
  sweepList s s.connections

/-- The body of `if (!isShuttingDown) { ... }` in `shutdown`: set the
flag, invoke `server.close` (registering its completion callback),
sweep the registry, and arm the forced-shutdown timer. -/
def drain (s : SysState) : SysState :=
  let s1 := { s with isShuttingDown := true }
  let s2 := { s1 with
    serverCloseCalls := s1.serverCloseCalls + 1
    closeCallbackPending := true }
  let r := sweep s2
  let s3 := { r.2 with lastSweepCounter := r.1 }
  { s3 with
    timerArmed := true
    timerArmCount := s3.timerArmCount + 1
    drainCount := s3.drainCount + 1 }

/-- The tail of `shutdown` after the development-mode block: if
`process.exit` has not happened, run the drain block guarded by
`!isShuttingDown`. -/
def shutdownRest (s1 : SysState) : SysState :=
  if s1.exited.isSome then s1
  else if !s1.isShuttingDown then drain s1
  else s1

/-- Models `function shutdown(sig)`.  In development mode
`handleCallbackThenExit()` runs first; there is no early return, so
unless that call exited the process synchronously, control falls
through to the `!isShuttingDown` guard and the drain block. -/
def shutdown (options : Options) (s : SysState) : SysState :=
  shutdownRest (if options.development then handleCallbackThenExit options s else s)

/-- Externally observable occurrences driving the event loop. -/
inductive Event where
  | trigger
  | connectionOpened
  | requestStart (id : Nat)
  | requestFinish (id : Nat)
  | connectionClosed (id : Nat)
  | serverCloseComplete
  | timerFire
  | promiseSettle
deriving DecidableEq, Repr

/-- Models the `connections[id]` lookup. -/
def lookup (l : List (Nat × Socket)) (id : Nat) : Option Socket :=
  (l.find? (fun e => e.1 = id)).map (fun e => e.2)

/-- Assignment `socket._isIdle = b` for the socket registered under `id`. -/
def setIdle (l : List (Nat × Socket)) (id : Nat) (b : Bool) : List (Nat × Socket) :=
  l.map (fun e => if e.1 = id then (e.1, { e.2 with _isIdle := b }) else e)

/-- The event dispatcher, translated handler-by-handler from the
source.  After `process.exit` no handler runs.
  * `trigger`: a configured signal fires `shutdown(signal)`.
  * `connectionOpened`: `server.on('connection')` registers the socket
    idle under a fresh id.
  * `requestStart`: `server.on('request')` sets `_isIdle = false`.
  * `requestFinish`: `res.on('finish')` sets `_isIdle = true` then
    calls `destroy(req.socket)`.
  * `connectionClosed`: `socket.on('close')` deletes the entry.
  * `serverCloseComplete`: the `server.close` completion callback runs
    `handleCallbackThenExit()` (one-shot).
  * `timerFire`: the forced-shutdown timer runs
    `handleCallbackThenExit()` (one-shot).
  * `promiseSettle`: an unsettled callback promise resolves or
    rejects; both `then` handlers call `exit`. -/
def step (options : Options) (s : SysState) (e : Event) : SysState :=
  if s.exited.isSome then s
  else
    match e with
    | .trigger => shutdown options s
    | .connectionOpened =>
        let id := s.connectionCounter
        { s with
          connectionCounter := id + 1
          connections := s.connections ++ [(id, { _isIdle := true, _connectionId := id })] }
    | .requestStart id => { s with connections := setIdle s.connections id false }
    | .requestFinish id =>
        match lookup s.connections id with
        | none => s
        | some socket =>
            let socket1 := { socket with _isIdle := true }
            destroy { s with connections := setIdle s.connections id true } socket1
    | .connectionClosed id =>
        { s with connections := s.connections.filter (fun e => e.1 ≠ id) }
    | .serverCloseComplete =>
        if s.closeCallbackPending then
          handleCallbackThenExit options { s with closeCallbackPending := false }
        else s
    | .timerFire =>
        if s.timerArmed then
          handleCallbackThenExit options { s with timerArmed := false }
        else s
    | .promiseSettle =>
        match s.pending with
        | [] => s
        | _ :: rest => exitProcess { s with pending := rest }

/-- Run a sequence of events from a state. -/
def run (options : Options) (s : SysState) (es : List Event) : SysState :=
  es.foldl (step options) s

/-- A convenient non-development configuration. -/
def cfgGraceful (cb : CallbackKind) : Options :=
  { signals := "SIGINT SIGTERM", timeout := 30000, development := false, callback := cb }

/-- A development-mode configuration. -/
def cfgDev (cb : CallbackKind) : Options :=
  { signals := "SIGINT SIGTERM", timeout := 30000, development := true, callback := cb }

/-!  ### Field bookkeeping lemmas -/

@[simp] lemma exitProcess_isShuttingDown (s : SysState) :
    (exitProcess s).isShuttingDown = s.isShuttingDown := rfl

@[simp] lemma exitProcess_exited (s : SysState) : (exitProcess s).exited = some 1 := rfl

@[simp] lemma exitProcess_exitCount (s : SysState) :
    (exitProcess s).exitCount = s.exitCount + 1 := rfl

@[simp] lemma exitProcess_drainCount (s : SysState) :
    (exitProcess s).drainCount = s.drainCount := rfl

@[simp] lemma exitProcess_serverCloseCalls (s : SysState) :
    (exitProcess s).serverCloseCalls = s.serverCloseCalls := rfl

@[simp] lemma exitProcess_timerArmCount (s : SysState) :
    (exitProcess s).timerArmCount = s.timerArmCount := rfl

@[simp] lemma exitProcess_callbackExecutions (s : SysState) :
    (exitProcess s).callbackExecutions = s.callbackExecutions := rfl

@[simp] lemma exitProcess_pending (s : SysState) : (exitProcess s).pending = s.pending := rfl

@[simp] lemma exitProcess_destroyedLog (s : SysState) :
    (exitProcess s).destroyedLog = s.destroyedLog := rfl

lemma destroy_isShuttingDown (s : SysState) (socket : Socket) :
    (destroy s socket).isShuttingDown = s.isShuttingDown := by
  unfold destroy; split <;> rfl

lemma destroy_exited (s : SysState) (socket : Socket) :
    (destroy s socket).exited = s.exited := by
  unfold destroy; split <;> rfl

lemma destroy_exitCount (s : SysState) (socket : Socket) :
    (destroy s socket).exitCount = s.exitCount := by
  unfold destroy; split <;> rfl

lemma destroy_drainCount (s : SysState) (socket : Socket) :
    (destroy s socket).drainCount = s.drainCount := by
  unfold destroy; split <;> rfl

lemma destroy_serverCloseCalls (s : SysState) (socket : Socket) :
    (destroy s socket).serverCloseCalls = s.serverCloseCalls := by
  unfold destroy; split <;> rfl

lemma destroy_timerArmCount (s : SysState) (socket : Socket) :
    (destroy s socket).timerArmCount = s.timerArmCount := by
  unfold destroy; split <;> rfl

lemma destroy_timerArmed (s : SysState) (socket : Socket) :
    (destroy s socket).timerArmed = s.timerArmed := by
  unfold destroy; split <;> rfl

lemma destroy_closeCallbackPending (s : SysState) (socket : Socket) :
    (destroy s socket).closeCallbackPending = s.closeCallbackPending := by
  unfold destroy; split <;> rfl

lemma destroy_pending (s : SysState) (socket : Socket) :
    (destroy s socket).pending = s.pending := by
  unfold destroy; split <;> rfl

lemma destroy_callbackExecutions (s : SysState) (socket : Socket) :
    (destroy s socket).callbackExecutions = s.callbackExecutions := by
  unfold destroy; split <;> rfl

lemma handleCallbackThenExit_isShuttingDown (options : Options) (s : SysState) :
    (handleCallbackThenExit options s).isShuttingDown = s.isShuttingDown := by
  cases h : options.callback <;> simp [handleCallbackThenExit, h]

lemma handleCallbackThenExit_drainCount (options : Options) (s : SysState) :
    (handleCallbackThenExit options s).drainCount = s.drainCount := by
  cases h : options.callback <;> simp [handleCallbackThenExit, h]

lemma handleCallbackThenExit_serverCloseCalls (options : Options) (s : SysState) :
    (handleCallbackThenExit options s).serverCloseCalls = s.serverCloseCalls := by
  cases h : options.callback <;> simp [handleCallbackThenExit, h]

lemma handleCallbackThenExit_timerArmCount (options : Options) (s : SysState) :
    (handleCallbackThenExit options s).timerArmCount = s.timerArmCount := by
  cases h : options.callback <;> simp [handleCallbackThenExit, h]

lemma handleCallbackThenExit_destroyedLog (options : Options) (s : SysState) :
    (handleCallbackThenExit options s).destroyedLog = s.destroyedLog := by
  cases h : options.callback <;> simp [handleCallbackThenExit, h]

/-!  ### The sweep as sequential destruction -/

/-- State part of the shutdown sweep: destroy each snapshot entry in turn. -/
def sweepSt : SysState → List (Nat × Socket) → SysState
  | s, [] => s
  | s, e :: t => sweepSt (destroy s e.2) t

lemma foldl_sweepStep (l : List (Nat × Socket)) :
    ∀ (n : Nat) (s : SysState), l.foldl sweepStep (n, s) = (n + l.length, sweepSt s l) := by
  induction l with
  | nil => intro n s; simp [sweepSt]
  | cons e t ih =>
      intro n s
      simp only [List.foldl_cons, sweepStep, sweepSt, ih, List.length_cons]
      rw [Nat.add_assoc, Nat.add_comm 1 t.length]

lemma sweep_fst (s : SysState) : (sweep s).1 = s.connections.length := by
  rw [sweep, sweepList, foldl_sweepStep]; simp

lemma sweep_snd (s : SysState) : (sweep s).2 = sweepSt s s.connections := by
  rw [sweep, sweepList, foldl_sweepStep]

lemma sweepSt_preserves {α : Sort _} (f : SysState → α)
    (hf : ∀ (s : SysState) (socket : Socket), f (destroy s socket) = f s) :
    ∀ (l : List (Nat × Socket)) (s : SysState), f (sweepSt s l) = f s := by
  intro l
  induction l with
  | nil => intro s; rfl
  | cons e t ih => intro s; simp only [sweepSt]; rw [ih, hf]

lemma sweepSt_isShuttingDown (l : List (Nat × Socket)) (s : SysState) :
    (sweepSt s l).isShuttingDown = s.isShuttingDown :=
  sweepSt_preserves SysState.isShuttingDown destroy_isShuttingDown l s

lemma sweepSt_exited (l : List (Nat × Socket)) (s : SysState) :
    (sweepSt s l).exited = s.exited :=
  sweepSt_preserves SysState.exited destroy_exited l s

lemma sweepSt_exitCount (l : List (Nat × Socket)) (s : SysState) :
    (sweepSt s l).exitCount = s.exitCount :=
  sweepSt_preserves SysState.exitCount destroy_exitCount l s

lemma sweepSt_drainCount (l : List (Nat × Socket)) (s : SysState) :
    (sweepSt s l).drainCount = s.drainCount :=
  sweepSt_preserves SysState.drainCount destroy_drainCount l s

lemma sweepSt_serverCloseCalls (l : List (Nat × Socket)) (s : SysState) :
    (sweepSt s l).serverCloseCalls = s.serverCloseCalls :=
  sweepSt_preserves SysState.serverCloseCalls destroy_serverCloseCalls l s

lemma sweepSt_timerArmCount (l : List (Nat × Socket)) (s : SysState) :
    (sweepSt s l).timerArmCount = s.timerArmCount :=
  sweepSt_preserves SysState.timerArmCount destroy_timerArmCount l s

lemma sweepSt_timerArmed (l : List (Nat × Socket)) (s : SysState) :
    (sweepSt s l).timerArmed = s.timerArmed :=
  sweepSt_preserves SysState.timerArmed destroy_timerArmed l s

lemma sweepSt_closeCallbackPending (l : List (Nat × Socket)) (s : SysState) :
    (sweepSt s l).closeCallbackPending = s.closeCallbackPending :=
  sweepSt_preserves SysState.closeCallbackPending destroy_closeCallbackPending l s

lemma sweepSt_pending (l : List (Nat × Socket)) (s : SysState) :
    (sweepSt s l).pending = s.pending :=
  sweepSt_preserves SysState.pending destroy_pending l s

lemma sweepSt_callbackExecutions (l : List (Nat × Socket)) (s : SysState) :
    (sweepSt s l).callbackExecutions = s.callbackExecutions :=
  sweepSt_preserves SysState.callbackExecutions destroy_callbackExecutions l s

/-!  ### Field values after the drain block -/

@[simp] lemma drain_isShuttingDown (s : SysState) : (drain s).isShuttingDown = true := by
  simp [drain, sweep_snd, sweepSt_isShuttingDown]

@[simp] lemma drain_drainCount (s : SysState) : (drain s).drainCount = s.drainCount + 1 := by
  simp [drain, sweep_snd, sweepSt_drainCount]

@[simp] lemma drain_serverCloseCalls (s : SysState) :
    (drain s).serverCloseCalls = s.serverCloseCalls + 1 := by
  simp [drain, sweep_snd, sweepSt_serverCloseCalls]

@[simp] lemma drain_timerArmCount (s : SysState) :
    (drain s).timerArmCount = s.timerArmCount + 1 := by
  simp [drain, sweep_snd, sweepSt_timerArmCount]

@[simp] lemma drain_timerArmed (s : SysState) : (drain s).timerArmed = true := by
  simp [drain]

@[simp] lemma drain_closeCallbackPending (s : SysState) :
    (drain s).closeCallbackPending = true := by
  simp [drain, sweep_snd, sweepSt_closeCallbackPending]

@[simp] lemma drain_exited (s : SysState) : (drain s).exited = s.exited := by
  simp [drain, sweep_snd, sweepSt_exited]

@[simp] lemma drain_exitCount (s : SysState) : (drain s).exitCount = s.exitCount := by
  simp [drain, sweep_snd, sweepSt_exitCount]

@[simp] lemma drain_pending (s : SysState) : (drain s).pending = s.pending := by
  simp [drain, sweep_snd, sweepSt_pending]

@[simp] lemma drain_callbackExecutions (s : SysState) :
    (drain s).callbackExecutions = s.callbackExecutions := by
  simp [drain, sweep_snd, sweepSt_callbackExecutions]

/-!  ### Step equations -/

lemma step_of_exited (options : Options) (s : SysState) (e : Event)
    (h : s.exited.isSome = true) : step options s e = s := by
  simp [step, h]

lemma step_trigger_eq (options : Options) (s : SysState) (h : s.exited = none) :
    step options s Event.trigger = shutdown options s := by
  simp [step, h]

lemma step_connectionOpened_eq (options : Options) (s : SysState) (h : s.exited = none) :
    step options s Event.connectionOpened =
      { s with
        connectionCounter := s.connectionCounter + 1
        connections := s.connections ++
          [(s.connectionCounter,
            { _isIdle := true, _connectionId := s.connectionCounter })] } := by
  simp [step, h]

lemma step_requestStart_eq (options : Options) (s : SysState) (id : Nat)
    (h : s.exited = none) :
    step options s (Event.requestStart id) =
      { s with connections := setIdle s.connections id false } := by
  simp [step, h]

lemma step_requestFinish_eq (options : Options) (s : SysState) (id : Nat)
    (h : s.exited = none) :
    step options s (Event.requestFinish id) =
      match lookup s.connections id with
      | none => s
      | some socket =>
          destroy { s with connections := setIdle s.connections id true }
            { socket with _isIdle := true } := by
  simp [step, h]

lemma step_connectionClosed_eq (options : Options) (s : SysState) (id : Nat)
    (h : s.exited = none) :
    step options s (Event.connectionClosed id) =
      { s with connections := s.connections.filter (fun e => e.1 ≠ id) } := by
  simp [step, h]

lemma step_serverCloseComplete_eq (options : Options) (s : SysState) (h : s.exited = none) :
    step options s Event.serverCloseComplete =
      if s.closeCallbackPending then
        handleCallbackThenExit options { s with closeCallbackPending := false }
      else s := by
  simp [step, h]

lemma step_timerFire_eq (options : Options) (s : SysState) (h : s.exited = none) :
    step options s Event.timerFire =
      if s.timerArmed then
        handleCallbackThenExit options { s with timerArmed := false }
      else s := by
  simp [step, h]

lemma step_promiseSettle_eq (options : Options) (s : SysState) (h : s.exited = none) :
    step options s Event.promiseSettle =
      match s.pending with
      | [] => s
      | _ :: rest => exitProcess { s with pending := rest } := by
  simp [step, h]

/-- With `development: false`, `shutdown` is exactly the guarded drain. -/
lemma shutdown_of_dev_false (options : Options) (s : SysState)
    (hdev : options.development = false) :
    shutdown options s = shutdownRest s := by
  unfold shutdown
  rw [hdev]
  simp

/-!  ### The one-shot drain invariant -/

/-- Before the flag is set nothing asynchronous is pending and nothing
drained; once it is set, the drain block has executed exactly once. -/
def DrainInv (s : SysState) : Prop :=
  (s.isShuttingDown = false →
      s.drainCount = 0 ∧ s.serverCloseCalls = 0 ∧ s.timerArmCount = 0 ∧
      s.closeCallbackPending = false ∧ s.timerArmed = false ∧
      s.pending = [] ∧ s.exited = none) ∧
  (s.isShuttingDown = true →
      s.drainCount = 1 ∧ s.serverCloseCalls = 1 ∧ s.timerArmCount = 1)

lemma drainInv_init : DrainInv initState := by
  constructor <;> intro h <;> simp_all [initState]

lemma drainInv_step (options : Options) (hdev : options.development = false)
    (s : SysState) (e : Event) (hinv : DrainInv s) : DrainInv (step options s e) := by
  cases hex : s.exited with
  | some c => rw [step_of_exited options s e (by rw [hex]; rfl)]; exact hinv
  | none =>
    cases e with
    | trigger =>
        rw [step_trigger_eq options s hex, shutdown_of_dev_false options s hdev,
          shutdownRest, hex]
        simp only [Option.isSome_none, Bool.false_eq_true, if_false]
        split
        next hflag =>
          have hflag' : s.isShuttingDown = false := by
            revert hflag; cases s.isShuttingDown <;> simp
          have h0 := hinv.1 hflag'
          constructor
          · intro h; simp at h
          · intro _; simp [h0.1, h0.2.1, h0.2.2.1]
        next => exact hinv
    | connectionOpened =>
        rw [step_connectionOpened_eq options s hex]
        exact ⟨fun h => hinv.1 h, fun h => hinv.2 h⟩
    | requestStart id =>
        rw [step_requestStart_eq options s id hex]
        exact ⟨fun h => hinv.1 h, fun h => hinv.2 h⟩
    | requestFinish id =>
        rw [step_requestFinish_eq options s id hex]
        cases hl : lookup s.connections id with
        | none => exact hinv
        | some socket =>
            simp only []
            constructor
            · intro h
              rw [destroy_isShuttingDown] at h
              have h0 := hinv.1 h
              refine ⟨?_, ?_, ?_, ?_, ?_, ?_, ?_⟩ <;>
                simp [destroy_drainCount, destroy_serverCloseCalls, destroy_timerArmCount,
                  destroy_closeCallbackPending, destroy_timerArmed, destroy_pending,
                  destroy_exited, h0.1, h0.2.1, h0.2.2.1, h0.2.2.2.1, h0.2.2.2.2.1,
                  h0.2.2.2.2.2.1, h0.2.2.2.2.2.2]
            · intro h
              rw [destroy_isShuttingDown] at h
              have h1 := hinv.2 h
              refine ⟨?_, ?_, ?_⟩ <;>
                simp [destroy_drainCount, destroy_serverCloseCalls, destroy_timerArmCount,
                  h1.1, h1.2.1, h1.2.2]
    | connectionClosed id =>
        rw [step_connectionClosed_eq options s id hex]
        exact ⟨fun h => hinv.1 h, fun h => hinv.2 h⟩
    | serverCloseComplete =>
        rw [step_serverCloseComplete_eq options s hex]
        split
        next hp =>
          have hflag : s.isShuttingDown = true := by
            by_contra h
            have h0 := hinv.1 (by revert h; cases s.isShuttingDown <;> simp)
            rw [h0.2.2.2.1] at hp
            cases hp
          have h1 := hinv.2 hflag
          constructor
          · intro h
            rw [handleCallbackThenExit_isShuttingDown] at h
            simp only at h
            rw [hflag] at h
            cases h
          · intro _
            refine ⟨?_, ?_, ?_⟩ <;>
              simp [handleCallbackThenExit_drainCount, handleCallbackThenExit_serverCloseCalls,
                handleCallbackThenExit_timerArmCount, h1.1, h1.2.1, h1.2.2]
        next => exact hinv
    | timerFire =>
        rw [step_timerFire_eq options s hex]
        split
        next hp =>
          have hflag : s.isShuttingDown = true := by
            by_contra h
            have h0 := hinv.1 (by revert h; cases s.isShuttingDown <;> simp)
            rw [h0.2.2.2.2.1] at hp
            cases hp
          have h1 := hinv.2 hflag
          constructor
          · intro h
            rw [handleCallbackThenExit_isShuttingDown] at h
            simp only at h
            rw [hflag] at h
            cases h
          · intro _
            refine ⟨?_, ?_, ?_⟩ <;>
              simp [handleCallbackThenExit_drainCount, handleCallbackThenExit_serverCloseCalls,
                handleCallbackThenExit_timerArmCount, h1.1, h1.2.1, h1.2.2]
        next => exact hinv
    | promiseSettle =>
        rw [step_promiseSettle_eq options s hex]
        cases hq : s.pending with
        | nil => exact hinv
        | cons b rest =>
            simp only []
            have hflag : s.isShuttingDown = true := by
              by_contra h
              have h0 := hinv.1 (by revert h; cases s.isShuttingDown <;> simp)
              rw [h0.2.2.2.2.2.1] at hq
              cases hq
            have h1 := hinv.2 hflag
            constructor
            · intro h
              rw [exitProcess_isShuttingDown] at h
              simp only at h
              rw [hflag] at h
              cases h
            · intro _
              exact ⟨h1.1, h1.2.1, h1.2.2⟩

lemma drainInv_run (options : Options) (hdev : options.development = false)
    (es : List Event) : ∀ (s : SysState), DrainInv s → DrainInv (run options s es) := by
  induction es with
  | nil => intro s h; exact h
  | cons e t ih =>
      intro s h
      exact ih (step options s e) (drainInv_step options hdev s e h)

/-!  ### Monotonicity of the shutdown flag -/

lemma shutdownRest_flag_mono (s : SysState)
    (h : s.isShuttingDown = true) : (shutdownRest s).isShuttingDown = true := by
  unfold shutdownRest
  split
  · exact h
  split
  · simp
  · exact h

lemma shutdown_flag_mono (options : Options) (s : SysState)
    (h : s.isShuttingDown = true) : (shutdown options s).isShuttingDown = true := by
  unfold shutdown
  apply shutdownRest_flag_mono
  split
  · rw [handleCallbackThenExit_isShuttingDown]; exact h
  · exact h

lemma step_flag_mono (options : Options) (s : SysState) (e : Event)
    (h : s.isShuttingDown = true) : (step options s e).isShuttingDown = true := by
  cases hex : s.exited with
  | some c => rw [step_of_exited options s e (by rw [hex]; rfl)]; exact h
  | none =>
    cases e with
    | trigger =>
        rw [step_trigger_eq options s hex]
        exact shutdown_flag_mono options s h
    | connectionOpened => rw [step_connectionOpened_eq options s hex]; exact h
    | requestStart id => rw [step_requestStart_eq options s id hex]; exact h
    | requestFinish id =>
        rw [step_requestFinish_eq options s id hex]
        cases hl : lookup s.connections id with
        | none => exact h
        | some socket => simp only []; rw [destroy_isShuttingDown]; exact h
    | connectionClosed id => rw [step_connectionClosed_eq options s id hex]; exact h
    | serverCloseComplete =>
        rw [step_serverCloseComplete_eq options s hex]
        split
        · rw [handleCallbackThenExit_isShuttingDown]; exact h
        · exact h
    | timerFire =>
        rw [step_timerFire_eq options s hex]
        split
        · rw [handleCallbackThenExit_isShuttingDown]; exact h
        · exact h
    | promiseSettle =>
        rw [step_promiseSettle_eq options s hex]
        cases hq : s.pending with
        | nil => exact h
        | cons b rest => simp only []; rw [exitProcess_isShuttingDown]; exact h

lemma run_flag_mono (options : Options) (es : List Event) :
    ∀ (s : SysState), s.isShuttingDown = true → (run options s es).isShuttingDown = true := by
  induction es with
  | nil => intro s h; exact h
  | cons e t ih =>
      intro s h
      exact ih (step options s e) (step_flag_mono options s e h)

/-- A trigger received while the process is alive sets the flag
(graceful mode). -/
lemma step_trigger_flag (options : Options) (s : SysState)
    (hdev : options.development = false) (hex : s.exited = none) :
    (step options s Event.trigger).isShuttingDown = true := by
  rw [step_trigger_eq options s hex, shutdown_of_dev_false options s hdev,
    shutdownRest, hex]
  simp only [Option.isSome_none, Bool.false_eq_true, if_false]
  split
  next hflag => simp
  next hflag => revert hflag; cases h : s.isShuttingDown <;> simp

lemma run_trigger_flag (options : Options) (hdev : options.development = false)
    (es : List Event) : ∀ (s : SysState), DrainInv s → Event.trigger ∈ es →
    (run options s es).isShuttingDown = true := by
  induction es with
  | nil => intro s _ hmem; cases hmem
  | cons e t ih =>
      intro s hinv hmem
      rcases List.mem_cons.mp hmem with he | ht
      · subst he
        cases hflag : s.isShuttingDown with
        | true => exact run_flag_mono options t _ (step_flag_mono options s _ hflag)
        | false =>
            have hex : s.exited = none := (hinv.1 hflag).2.2.2.2.2.2
            exact run_flag_mono options t _ (step_trigger_flag options s hdev hex)
      · exact ih (step options s e) (drainInv_step options hdev s e hinv) ht

/-!  ### One-shot finalization for synchronously-exiting callbacks -/

/-- When finalization exits synchronously (no callback, or a callback
that returns no promise), every `handleCallbackThenExit` call ends in
`process.exit`, so the callback runs at most once and the process
exits at most once; while the process is alive neither has happened. -/
def OneShotInv (s : SysState) : Prop :=
  s.pending = [] ∧ s.callbackExecutions ≤ 1 ∧ s.exitCount ≤ 1 ∧
  (s.exited = none → s.callbackExecutions = 0 ∧ s.exitCount = 0)

lemma oneShotInv_init : OneShotInv initState := by
  refine ⟨rfl, ?_, ?_, ?_⟩ <;> simp [initState]

lemma handleCallbackThenExit_oneShot (options : Options) (s : SysState)
    (hcb : options.callback = CallbackKind.noCallback ∨
      options.callback = CallbackKind.syncCallback)
    (hex : s.exited = none) (hinv : OneShotInv s) :
    OneShotInv (handleCallbackThenExit options s) := by
  have h0 := hinv.2.2.2 hex
  rcases hcb with h | h <;>
    simp [handleCallbackThenExit, h, OneShotInv, exitProcess, hinv.1, h0.1, h0.2]

lemma shutdownRest_oneShot (s1 : SysState) (hinv : OneShotInv s1) :
    OneShotInv (shutdownRest s1) := by
  unfold shutdownRest
  split
  · exact hinv
  split
  · refine ⟨?_, ?_, ?_, ?_⟩
    · rw [drain_pending]; exact hinv.1
    · rw [drain_callbackExecutions]; exact hinv.2.1
    · rw [drain_exitCount]; exact hinv.2.2.1
    · intro h
      rw [drain_exited] at h
      rw [drain_callbackExecutions, drain_exitCount]
      exact hinv.2.2.2 h
  · exact hinv

lemma oneShotInv_step (options : Options)
    (hcb : options.callback = CallbackKind.noCallback ∨
      options.callback = CallbackKind.syncCallback)
    (s : SysState) (e : Event) (hinv : OneShotInv s) : OneShotInv (step options s e) := by
  cases hex : s.exited with
  | some c => rw [step_of_exited options s e (by rw [hex]; rfl)]; exact hinv
  | none =>
    cases e with
    | trigger =>
        rw [step_trigger_eq options s hex]
        unfold shutdown
        apply shutdownRest_oneShot
        split
        · exact handleCallbackThenExit_oneShot options s hcb hex hinv
        · exact hinv
    | connectionOpened =>
        rw [step_connectionOpened_eq options s hex]
        exact ⟨hinv.1, hinv.2.1, hinv.2.2.1, hinv.2.2.2⟩
    | requestStart id =>
        rw [step_requestStart_eq options s id hex]
        exact ⟨hinv.1, hinv.2.1, hinv.2.2.1, hinv.2.2.2⟩
    | requestFinish id =>
        rw [step_requestFinish_eq options s id hex]
        cases hl : lookup s.connections id with
        | none => exact hinv
        | some socket =>
            simp only []
            refine ⟨?_, ?_, ?_, ?_⟩
            · rw [destroy_pending]; exact hinv.1
            · rw [destroy_callbackExecutions]; exact hinv.2.1
            · rw [destroy_exitCount]; exact hinv.2.2.1
            · intro h
              rw [destroy_exited] at h
              rw [destroy_callbackExecutions, destroy_exitCount]
              exact hinv.2.2.2 h
    | connectionClosed id =>
        rw [step_connectionClosed_eq options s id hex]
        exact ⟨hinv.1, hinv.2.1, hinv.2.2.1, hinv.2.2.2⟩
    | serverCloseComplete =>
        rw [step_serverCloseComplete_eq options s hex]
        split
        · exact handleCallbackThenExit_oneShot options _ hcb hex
            ⟨hinv.1, hinv.2.1, hinv.2.2.1, hinv.2.2.2⟩
        · exact hinv
    | timerFire =>
        rw [step_timerFire_eq options s hex]
        split
        · exact handleCallbackThenExit_oneShot options _ hcb hex
            ⟨hinv.1, hinv.2.1, hinv.2.2.1, hinv.2.2.2⟩
        · exact hinv
    | promiseSettle =>
        rw [step_promiseSettle_eq options s hex, hinv.1]
        exact hinv

lemma oneShotInv_run (options : Options)
    (hcb : options.callback = CallbackKind.noCallback ∨
      options.callback = CallbackKind.syncCallback)
    (es : List Event) : ∀ (s : SysState), OneShotInv s → OneShotInv (run options s es) := by
  induction es with
  | nil => intro s h; exact h
  | cons e t ih =>
      intro s h
      exact ih (step options s e) (oneShotInv_step options hcb s e h)

/-!  ### Only idle sockets are ever destroyed -/

/-- Every socket destruction recorded so far happened while the socket
was marked idle. -/
def IdleLogInv (s : SysState) : Prop :=
  ∀ p ∈ s.destroyedLog, p.2 = true

lemma destroy_idleLog (s : SysState) (socket : Socket) (hinv : IdleLogInv s) :
    IdleLogInv (destroy s socket) := by
  unfold destroy
  split
  next hg =>
    intro p hp
    rcases List.mem_append.mp hp with h | h
    · exact hinv p h
    · simp only [Bool.and_eq_true] at hg
      rw [List.mem_singleton.mp h]
      exact hg.1
  next => exact hinv

lemma sweepSt_idleLog (l : List (Nat × Socket)) :
    ∀ (s : SysState), IdleLogInv s → IdleLogInv (sweepSt s l) := by
  induction l with
  | nil => intro s h; exact h
  | cons e t ih =>
      intro s h
      simp only [sweepSt]
      exact ih (destroy s e.2) (destroy_idleLog s e.2 h)

lemma drain_destroyedLog (s : SysState) :
    (drain s).destroyedLog =
      (sweepSt { s with isShuttingDown := true,
                        serverCloseCalls := s.serverCloseCalls + 1,
                        closeCallbackPending := true } s.connections).destroyedLog := by
  simp [drain, sweep_snd]

lemma drain_idleLog (s : SysState) (hinv : IdleLogInv s) : IdleLogInv (drain s) := by
  intro p hp
  rw [drain_destroyedLog] at hp
  exact sweepSt_idleLog s.connections
    { s with isShuttingDown := true, serverCloseCalls := s.serverCloseCalls + 1,
             closeCallbackPending := true }
    (fun q hq => hinv q hq) p hp

lemma handleCallbackThenExit_idleLog (options : Options) (s : SysState)
    (hinv : IdleLogInv s) : IdleLogInv (handleCallbackThenExit options s) := by
  intro p hp
  rw [handleCallbackThenExit_destroyedLog] at hp
  exact hinv p hp

lemma shutdownRest_idleLog (s1 : SysState) (hinv : IdleLogInv s1) :
    IdleLogInv (shutdownRest s1) := by
  unfold shutdownRest
  split
  · exact hinv
  split
  · exact drain_idleLog s1 hinv
  · exact hinv

lemma idleLogInv_step (options : Options) (s : SysState) (e : Event)
    (hinv : IdleLogInv s) : IdleLogInv (step options s e) := by
  cases hex : s.exited with
  | some c => rw [step_of_exited options s e (by rw [hex]; rfl)]; exact hinv
  | none =>
    cases e with
    | trigger =>
        rw [step_trigger_eq options s hex]
        unfold shutdown
        apply shutdownRest_idleLog
        split
        · exact handleCallbackThenExit_idleLog options s hinv
        · exact hinv
    | connectionOpened => rw [step_connectionOpened_eq options s hex]; exact hinv
    | requestStart id => rw [step_requestStart_eq options s id hex]; exact hinv
    | requestFinish id =>
        rw [step_requestFinish_eq options s id hex]
        cases hl : lookup s.connections id with
        | none => exact hinv
        | some socket =>
            simp only []
            exact destroy_idleLog _ _ (fun q hq => hinv q hq)
    | connectionClosed id => rw [step_connectionClosed_eq options s id hex]; exact hinv
    | serverCloseComplete =>
        rw [step_serverCloseComplete_eq options s hex]
        split
        · exact handleCallbackThenExit_idleLog options _ (fun q hq => hinv q hq)
        · exact hinv
    | timerFire =>
        rw [step_timerFire_eq options s hex]
        split
        · exact handleCallbackThenExit_idleLog options _ (fun q hq => hinv q hq)
        · exact hinv
    | promiseSettle =>
        rw [step_promiseSettle_eq options s hex]
        cases hq : s.pending with
        | nil => exact hinv
        | cons b rest =>
            simp only []
            intro p hp
            rw [exitProcess_destroyedLog] at hp
            exact hinv p hp

lemma idleLogInv_run (options : Options) (es : List Event) :
    ∀ (s : SysState), IdleLogInv s → IdleLogInv (run options s es) := by
  induction es with
  | nil => intro s h; exact h
  | cons e t ih =>
      intro s h
      exact ih (step options s e) (idleLogInv_step options s e h)

/-!  ### Registry lookup after removal -/

lemma lookup_filter_ne (l : List (Nat × Socket)) (id : Nat) :
    lookup (l.filter (fun e => e.1 ≠ id)) id = none := by
  have h : (l.filter (fun e => e.1 ≠ id)).find? (fun e => e.1 = id) = none := by
    rw [List.find?_eq_none]
    intro x hx
    have hne := List.of_mem_filter hx
    simp at hne ⊢
    exact hne
  unfold lookup
  rw [h]
  rfl

/-!  ### Exact characterization of a sweep -/

/-- Connection ids of the idle entries of a snapshot. -/
def idleCids (l : List (Nat × Socket)) : List Nat :=
  (l.filter (fun e => e.2._isIdle)).map (fun e => e.2._connectionId)

lemma sweepSt_of_not_shutting (l : List (Nat × Socket)) :
    ∀ (s : SysState), s.isShuttingDown = false → sweepSt s l = s := by
  induction l with
  | nil => intro s _; rfl
  | cons e t ih =>
      intro s h
      have hd : destroy s e.2 = s := by
        unfold destroy
        rw [h]
        simp
      simp only [sweepSt, hd]
      exact ih s h

lemma sweepSt_spec (l : List (Nat × Socket)) :
    ∀ (s : SysState), s.isShuttingDown = true →
      (sweepSt s l).connections =
        (idleCids l).foldl (fun c i => c.filter (fun e => e.1 ≠ i)) s.connections ∧
      (sweepSt s l).destroyedLog =
        s.destroyedLog ++ (idleCids l).map (fun i => (i, true)) := by
  induction l with
  | nil => intro s _; constructor <;> simp [sweepSt, idleCids]
  | cons e t ih =>
      intro s h
      cases hidle : e.2._isIdle with
      | false =>
          have hd : destroy s e.2 = s := by
            unfold destroy
            rw [hidle]
            simp
          have hc : idleCids (e :: t) = idleCids t := by
            simp [idleCids, hidle]
          simp only [sweepSt, hd, hc]
          exact ih s h
      | true =>
          have h1 : (destroy s e.2).isShuttingDown = true := by
            rw [destroy_isShuttingDown]; exact h
          obtain ⟨ihc, ihl⟩ := ih (destroy s e.2) h1
          have hc2 : (destroy s e.2).connections =
              s.connections.filter (fun x => x.1 ≠ e.2._connectionId) := by
            unfold destroy
            rw [hidle, h]
            simp
          have hl2 : (destroy s e.2).destroyedLog =
              s.destroyedLog ++ [(e.2._connectionId, true)] := by
            unfold destroy
            rw [hidle, h]
            simp
          have hc : idleCids (e :: t) = e.2._connectionId :: idleCids t := by
            simp [idleCids, hidle]
          constructor
          · simp only [sweepSt]
            rw [ihc, hc2, hc, List.foldl_cons]
          · simp only [sweepSt]
            rw [ihl, hl2, hc, List.map_cons, List.append_assoc, List.singleton_append]

lemma foldl_remove_eq_filter (ids : List Nat) :
    ∀ (c : List (Nat × Socket)),
      ids.foldl (fun c i => c.filter (fun e => e.1 ≠ i)) c =
        c.filter (fun e => decide (e.1 ∉ ids)) := by
  induction ids with
  | nil => intro c; simp
  | cons i ids ih =>
      intro c
      rw [List.foldl_cons, ih, List.filter_filter]
      apply List.filter_congr
      intro x _
      have hiff : (x.1 ∉ i :: ids) ↔ (x.1 ∉ ids ∧ x.1 ≠ i) := by
        simp only [List.mem_cons, not_or]
        tauto
      rw [decide_eq_decide.mpr hiff]
      · by_cases h1 : x.1 ∉ ids <;> by_cases h2 : x.1 ≠ i <;> simp [h1, h2]
      · infer_instance

lemma mem_idleCids_iff (l : List (Nat × Socket))
    (hwf : ∀ e ∈ l, e.2._connectionId = e.1)
    (hnd : (l.map Prod.fst).Nodup)
    {x : Nat × Socket} (hx : x ∈ l) :
    x.1 ∈ idleCids l ↔ x.2._isIdle = true := by
  constructor
  · intro h
    rcases List.mem_map.mp h with ⟨f, hf, hfe⟩
    have hfl : f ∈ l := List.mem_of_mem_filter hf
    have hfid : f.2._isIdle = true := by simpa using List.of_mem_filter hf
    have hkey : f.1 = x.1 := by rw [← hwf f hfl]; exact hfe
    have heq : f = x := List.inj_on_of_nodup_map hnd hfl hx hkey
    rw [← heq]
    exact hfid
  · intro h
    apply List.mem_map.mpr
    refine ⟨x, ?_, hwf x hx⟩
    exact List.mem_filter.mpr ⟨hx, by simp [h]⟩

lemma sweepSt_connections_of_wf (s : SysState) (hflag : s.isShuttingDown = true)
    (hwf : ∀ e ∈ s.connections, e.2._connectionId = e.1)
    (hnd : (s.connections.map Prod.fst).Nodup) :
    (sweepSt s s.connections).connections =
      s.connections.filter (fun e => !e.2._isIdle) := by
  rw [(sweepSt_spec s.connections s hflag).1, foldl_remove_eq_filter]
  apply List.filter_congr
  intro x hx
  have hiff := mem_idleCids_iff s.connections hwf hnd hx
  cases hidle : x.2._isIdle with
  | true =>
      have : x.1 ∈ idleCids s.connections := hiff.mpr hidle
      simp [this]
  | false =>
      have : x.1 ∉ idleCids s.connections := fun hmem => by
        rw [hiff.mp hmem] at hidle
        cases hidle
      simp [this]

lemma sweepSt_destroyedLog_of_wf (s : SysState) (hflag : s.isShuttingDown = true)
    (hwf : ∀ e ∈ s.connections, e.2._connectionId = e.1) :
    (sweepSt s s.connections).destroyedLog =
      s.destroyedLog ++
        (s.connections.filter (fun e => e.2._isIdle)).map (fun e => (e.1, true)) := by
  rw [(sweepSt_spec s.connections s hflag).2]
  congr 1
  unfold idleCids
  rw [List.map_map]
  apply List.map_congr_left
  intro e he
  have hel : e ∈ s.connections := List.mem_of_mem_filter he
  simp [hwf e hel]

/-!  ### The process exits at most once, whatever the callback -/

/-- Whatever the configured callback, `process.exit` is recorded at
most once: no handler runs on an exited process, and while the process
is alive no exit has been recorded. -/
def ExitOnceInv (s : SysState) : Prop :=
  s.exitCount ≤ 1 ∧ (s.exited = none → s.exitCount = 0)

lemma exitOnceInv_init : ExitOnceInv initState := by
  constructor <;> simp [initState]

lemma handleCallbackThenExit_exitOnce (options : Options) (s : SysState)
    (hex : s.exited = none) (hinv : ExitOnceInv s) :
    ExitOnceInv (handleCallbackThenExit options s) := by
  have h0 := hinv.2 hex
  cases h : options.callback <;>
    simp [handleCallbackThenExit, h, ExitOnceInv, exitProcess, h0, hex]

lemma shutdownRest_exitOnce (s1 : SysState) (hinv : ExitOnceInv s1) :
    ExitOnceInv (shutdownRest s1) := by
  unfold shutdownRest
  split
  · exact hinv
  split
  · refine ⟨?_, ?_⟩
    · rw [drain_exitCount]; exact hinv.1
    · intro h
      rw [drain_exited] at h
      rw [drain_exitCount]
      exact hinv.2 h
  · exact hinv

lemma exitOnceInv_step (options : Options) (s : SysState) (e : Event)
    (hinv : ExitOnceInv s) : ExitOnceInv (step options s e) := by
  cases hex : s.exited with
  | some c => rw [step_of_exited options s e (by rw [hex]; rfl)]; exact hinv
  | none =>
    cases e with
    | trigger =>
        rw [step_trigger_eq options s hex]
        unfold shutdown
        apply shutdownRest_exitOnce
        split
        · exact handleCallbackThenExit_exitOnce options s hex hinv
        · exact hinv
    | connectionOpened =>
        rw [step_connectionOpened_eq options s hex]
        exact ⟨hinv.1, hinv.2⟩
    | requestStart id =>
        rw [step_requestStart_eq options s id hex]
        exact ⟨hinv.1, hinv.2⟩
    | requestFinish id =>
        rw [step_requestFinish_eq options s id hex]
        cases hl : lookup s.connections id with
        | none => exact hinv
        | some socket =>
            simp only []
            refine ⟨?_, ?_⟩
            · rw [destroy_exitCount]; exact hinv.1
            · intro h
              rw [destroy_exited] at h
              rw [destroy_exitCount]
              exact hinv.2 h
    | connectionClosed id =>
        rw [step_connectionClosed_eq options s id hex]
        exact ⟨hinv.1, hinv.2⟩
    | serverCloseComplete =>
        rw [step_serverCloseComplete_eq options s hex]
        split
        · exact handleCallbackThenExit_exitOnce options _ hex ⟨hinv.1, hinv.2⟩
        · exact hinv
    | timerFire =>
        rw [step_timerFire_eq options s hex]
        split
        · exact handleCallbackThenExit_exitOnce options _ hex ⟨hinv.1, hinv.2⟩
        · exact hinv
    | promiseSettle =>
        rw [step_promiseSettle_eq options s hex]
        cases hq : s.pending with
        | nil => exact hinv
        | cons b rest =>
            simp only []
            have h0 := hinv.2 hex
            refine ⟨?_, ?_⟩
            · rw [exitProcess_exitCount]
              simp [h0]
            · intro h
              rw [exitProcess_exited] at h
              simp at h

lemma exitOnceInv_run (options : Options) (es : List Event) :
    ∀ (s : SysState), ExitOnceInv s → ExitOnceInv (run options s es) := by
  induction es with
  | nil => intro s h; exact h
  | cons e t ih =>
      intro s h
      exact ih (step options s e) (exitOnceInv_step options s e h)

/-!  ## Claim theorems -/

/-- C1: for every sequence of termination triggers (and other events),
invoking the shutdown entry point one or more times executes the drain
sequence — listener close, registry sweep, timer arming — exactly
once: the first trigger sets `isShuttingDown` and performs the
sequence, and every subsequent trigger while the flag is set performs
none of the drain steps. -/
theorem drain_sequence_exactly_once (options : Options) (es : List Event)
    (hdev : options.development = false) (hmem : Event.trigger ∈ es) :
    (run options initState es).drainCount = 1 ∧
    (run options initState es).serverCloseCalls = 1 ∧
    (run options initState es).timerArmCount = 1 := by
  have hinv := drainInv_run options hdev es initState drainInv_init
  have hflag := run_trigger_flag options hdev es initState drainInv_init hmem
  exact hinv.2 hflag

/-- Witness for C1 at a concrete double trigger. -/
theorem drain_sequence_exactly_once_witness :
    (cfgGraceful CallbackKind.noCallback).development = false ∧
    Event.trigger ∈ [Event.trigger, Event.trigger] ∧
    (run (cfgGraceful CallbackKind.noCallback) initState
        [Event.trigger, Event.trigger]).drainCount = 1 :=
  ⟨rfl, by decide,
    (drain_sequence_exactly_once (cfgGraceful CallbackKind.noCallback)
      [Event.trigger, Event.trigger] rfl (by decide)).1⟩

/-- C2 (failing input): with `development: true` and a callback that
returns a promise, a single termination trigger starts dev-mode
finalization (the callback runs, the process has not exited yet) and
then — because `shutdown` does not return early — still performs every
drain step: `server.close` is invoked, the registered idle connection
is destroyed, and the forced-shutdown timer is armed. -/
theorem dev_mode_drains_with_async_callback :
    (run (cfgDev CallbackKind.asyncResolves) initState
        [Event.connectionOpened, Event.trigger]).callbackExecutions = 1 ∧
    (run (cfgDev CallbackKind.asyncResolves) initState
        [Event.connectionOpened, Event.trigger]).exited = none ∧
    (run (cfgDev CallbackKind.asyncResolves) initState
        [Event.connectionOpened, Event.trigger]).serverCloseCalls = 1 ∧
    (run (cfgDev CallbackKind.asyncResolves) initState
        [Event.connectionOpened, Event.trigger]).timerArmCount = 1 ∧
    (run (cfgDev CallbackKind.asyncResolves) initState
        [Event.connectionOpened, Event.trigger]).destroyedLog = [(0, true)] := by
  decide

/-- C3: finalization always exits with status 1 — immediately with no
callback or a synchronous callback, and upon settlement of the promise
for an asynchronous callback, whether it resolves or rejects (the
rejection is absorbed by the `then(exit, exit)` handlers). -/
theorem finalize_exit_status_one (options : Options) (s : SysState)
    (hex : s.exited = none) :
    (options.callback = CallbackKind.noCallback →
        (handleCallbackThenExit options s).exited = some 1) ∧
    (options.callback = CallbackKind.syncCallback →
        (handleCallbackThenExit options s).exited = some 1) ∧
    (options.callback = CallbackKind.asyncResolves →
        (step options (handleCallbackThenExit options s) Event.promiseSettle).exited
          = some 1) ∧
    (options.callback = CallbackKind.asyncRejects →
        (step options (handleCallbackThenExit options s) Event.promiseSettle).exited
          = some 1) := by
  refine ⟨fun h => by simp [handleCallbackThenExit, h], fun h => by
    simp [handleCallbackThenExit, h], fun h => ?_, fun h => ?_⟩
  · have hex1 : (handleCallbackThenExit options s).exited = none := by
      simp [handleCallbackThenExit, h, hex]
    have hp : (handleCallbackThenExit options s).pending = s.pending ++ [true] := by
      simp [handleCallbackThenExit, h]
    rw [step_promiseSettle_eq options _ hex1, hp]
    cases s.pending <;> simp
  · have hex1 : (handleCallbackThenExit options s).exited = none := by
      simp [handleCallbackThenExit, h, hex]
    have hp : (handleCallbackThenExit options s).pending = s.pending ++ [false] := by
      simp [handleCallbackThenExit, h]
    rw [step_promiseSettle_eq options _ hex1, hp]
    cases s.pending <;> simp

/-- Witness for C3 on a rejecting asynchronous callback. -/
theorem finalize_exit_status_one_witness :
    initState.exited = none ∧
    (step (cfgGraceful CallbackKind.asyncRejects)
        (handleCallbackThenExit (cfgGraceful CallbackKind.asyncRejects) initState)
        Event.promiseSettle).exited = some 1 :=
  ⟨rfl, (finalize_exit_status_one (cfgGraceful CallbackKind.asyncRejects)
    initState rfl).2.2.2 rfl⟩

/-- C4: a connection that is busy while draining is closed the moment
its request finishes: the `finish` handler marks it idle and `destroy`
— seeing the draining flag — destroys the socket and removes it from
the registry at once. -/
theorem busy_connection_reaped_on_finish (options : Options) (s : SysState)
    (id : Nat) (socket : Socket) (hex : s.exited = none)
    (hflag : s.isShuttingDown = true)
    (hlk : lookup s.connections id = some socket)
    (hid : socket._connectionId = id) (hbusy : socket._isIdle = false) :
    lookup (step options s (Event.requestFinish id)).connections id = none ∧
    (id, true) ∈ (step options s (Event.requestFinish id)).destroyedLog := by
  rw [step_requestFinish_eq options s id hex, hlk]
  simp only []
  have hgo : destroy { s with connections := setIdle s.connections id true }
      { socket with _isIdle := true } =
      { s with
        connections := (setIdle s.connections id true).filter (fun e => e.1 ≠ id)
        destroyedLog := s.destroyedLog ++ [(id, true)] } := by
    unfold destroy
    simp [hflag, hid]
  rw [hgo]
  exact ⟨lookup_filter_ne _ id, by simp⟩

/-- Witness for C4: one busy connection, shutdown triggered, request
then finishes. -/
theorem busy_connection_reaped_on_finish_witness :
    (run (cfgGraceful CallbackKind.noCallback) initState
        [Event.connectionOpened, Event.requestStart 0, Event.trigger]).exited = none ∧
    (run (cfgGraceful CallbackKind.noCallback) initState
        [Event.connectionOpened, Event.requestStart 0, Event.trigger]).isShuttingDown
      = true ∧
    (0, true) ∈ (step (cfgGraceful CallbackKind.noCallback)
        (run (cfgGraceful CallbackKind.noCallback) initState
          [Event.connectionOpened, Event.requestStart 0, Event.trigger])
        (Event.requestFinish 0)).destroyedLog :=
  ⟨by decide, by decide,
    (busy_connection_reaped_on_finish (cfgGraceful CallbackKind.noCallback)
      (run (cfgGraceful CallbackKind.noCallback) initState
        [Event.connectionOpened, Event.requestStart 0, Event.trigger])
      0 { _isIdle := false, _connectionId := 0 }
      (by decide) (by decide) (by decide) (by decide) (by decide)).2⟩

/-- C5: a reaper pass is a state no-op when the draining flag is
false; when it is true, it destroys exactly the idle connections —
recording each destruction — and leaves exactly the busy connections
registered (stated for well-formed registries: stored ids match keys
and keys are distinct). -/
theorem reaper_pass_spec (s : SysState)
    (hwf : ∀ e ∈ s.connections, e.2._connectionId = e.1)
    (hnd : (s.connections.map Prod.fst).Nodup) :
    (s.isShuttingDown = false → (sweep s).2 = s) ∧
    (s.isShuttingDown = true →
      (sweep s).2.connections = s.connections.filter (fun e => !e.2._isIdle) ∧
      (sweep s).2.destroyedLog = s.destroyedLog ++
        (s.connections.filter (fun e => e.2._isIdle)).map (fun e => (e.1, true))) := by
  constructor
  · intro h
    rw [sweep_snd]
    exact sweepSt_of_not_shutting s.connections s h
  · intro h
    rw [sweep_snd]
    exact ⟨sweepSt_connections_of_wf s h hwf hnd, sweepSt_destroyedLog_of_wf s h hwf⟩

/-- A two-connection draining registry: connection 0 idle, 1 busy. -/
def sweepDemoState : SysState :=
  { initState with
    isShuttingDown := true
    connections := [(0, { _isIdle := true, _connectionId := 0 }),
                    (1, { _isIdle := false, _connectionId := 1 })] }

/-- Witness for C5 on `sweepDemoState`. -/
theorem reaper_pass_spec_witness :
    sweepDemoState.isShuttingDown = true ∧
    (sweep sweepDemoState).2.connections =
      sweepDemoState.connections.filter (fun e => !e.2._isIdle) ∧
    (sweep sweepDemoState).2.destroyedLog = sweepDemoState.destroyedLog ++
      (sweepDemoState.connections.filter (fun e => e.2._isIdle)).map
        (fun e => (e.1, true)) :=
  ⟨rfl, (reaper_pass_spec sweepDemoState (by decide) (by decide)).2 rfl⟩

/-- C6 (counterexample): with an asynchronous callback, the
`server.close` completion invokes the callback once; if the forced
timer then fires before the promise settles, the callback is invoked a
second time — the later of the two arrivals is not a no-op. -/
theorem finalizer_double_invocation_counterexample :
    (run (cfgGraceful CallbackKind.asyncResolves) initState
        [Event.trigger, Event.serverCloseComplete]).callbackExecutions = 1 ∧
    (run (cfgGraceful CallbackKind.asyncResolves) initState
        [Event.trigger, Event.serverCloseComplete, Event.timerFire]).callbackExecutions
      = 2 := by
  decide

/-- C6 (amended): whichever of the listener-close completion and the
forced timer fires first drives finalization.  For every configuration
— any callback shape, promise-returning ones included — the process
exits at most once over every event sequence, and no handler runs once
`process.exit` has happened, so a later arrival after a synchronous
exit is a complete no-op.  When finalization exits synchronously (no
callback, or a callback returning no promise) the user callback also
runs at most once; with a promise-returning callback the later arrival
re-invokes it (the counterexample). -/
theorem finalize_at_most_once (options : Options) (es : List Event) :
    (run options initState es).exitCount ≤ 1 ∧
    (∀ (s : SysState) (e : Event), s.exited.isSome = true → step options s e = s) ∧
    ((options.callback = CallbackKind.noCallback ∨
        options.callback = CallbackKind.syncCallback) →
      (run options initState es).callbackExecutions ≤ 1) :=
  ⟨(exitOnceInv_run options es initState exitOnceInv_init).1,
    fun s e hex => step_of_exited options s e hex,
    fun hcb => (oneShotInv_run options hcb es initState oneShotInv_init).2.1⟩

/-- Witness for C6's amended statement: close-completion then a stale
timer fire, once with a promise-returning callback (single exit) and
once with a synchronous callback (single callback run). -/
theorem finalize_at_most_once_witness :
    (run (cfgGraceful CallbackKind.asyncResolves) initState
        [Event.trigger, Event.serverCloseComplete, Event.timerFire]).exitCount ≤ 1 ∧
    ((cfgGraceful CallbackKind.syncCallback).callback = CallbackKind.noCallback ∨
      (cfgGraceful CallbackKind.syncCallback).callback = CallbackKind.syncCallback) ∧
    (run (cfgGraceful CallbackKind.syncCallback) initState
        [Event.trigger, Event.serverCloseComplete, Event.timerFire]).callbackExecutions
      ≤ 1 :=
  ⟨(finalize_at_most_once (cfgGraceful CallbackKind.asyncResolves)
      [Event.trigger, Event.serverCloseComplete, Event.timerFire]).1,
    Or.inr rfl,
    (finalize_at_most_once (cfgGraceful CallbackKind.syncCallback)
      [Event.trigger, Event.serverCloseComplete, Event.timerFire]).2.2 (Or.inr rfl)⟩

/-- C7: the draining flag starts false, no event of the system ever
resets it, and (in graceful mode) a trigger delivered to the live
process sets it. -/
theorem isShuttingDown_one_way :
    initState.isShuttingDown = false ∧
    (∀ (options : Options) (s : SysState) (e : Event),
        s.isShuttingDown = true → (step options s e).isShuttingDown = true) ∧
    (∀ (options : Options) (s : SysState), options.development = false →
        s.exited = none → (step options s Event.trigger).isShuttingDown = true) :=
  ⟨rfl, fun options s e h => step_flag_mono options s e h,
    fun options s hdev hex => step_trigger_flag options s hdev hex⟩

/-- Witness for C7 at the initial state. -/
theorem isShuttingDown_one_way_witness :
    initState.exited = none ∧
    (step (cfgGraceful CallbackKind.noCallback) initState
        Event.trigger).isShuttingDown = true :=
  ⟨rfl, isShuttingDown_one_way.2.2 (cfgGraceful CallbackKind.noCallback) initState rfl rfl⟩

/-- C8 (failing input): one busy connection registered when shutdown
triggers.  The sweep leaves it registered and destroys nothing, yet
the `counter` reported as `Connections destroyed` is 1 — it counts
connections examined, not connections destroyed. -/
theorem sweep_counter_counts_examined :
    (run (cfgGraceful CallbackKind.noCallback) initState
        [Event.connectionOpened, Event.requestStart 0, Event.trigger]).lastSweepCounter
      = 1 ∧
    (run (cfgGraceful CallbackKind.noCallback) initState
        [Event.connectionOpened, Event.requestStart 0, Event.trigger]).destroyedLog
      = [] ∧
    lookup (run (cfgGraceful CallbackKind.noCallback) initState
        [Event.connectionOpened, Event.requestStart 0, Event.trigger]).connections 0
      = some { _isIdle := false, _connectionId := 0 } := by
  decide

/-- C9: every omitted option takes its documented default — signals
`SIGINT` and `SIGTERM`, timeout 30000 ms, development mode off. -/
theorem default_options (opts : Opts) (h1 : opts.signals = none)
    (h2 : opts.timeout = none) (h3 : opts.development = none) :
    subscribedSignals (defaults opts) = ["SIGINT", "SIGTERM"] ∧
    (defaults opts).timeout = 30000 ∧
    (defaults opts).development = false := by
  rcases opts with ⟨osig, otim, odev, cb⟩
  rw [show osig = none from h1, show otim = none from h2, show odev = none from h3]
  cases cb <;> decide

/-- Witness for C9 on the empty options object. -/
theorem default_options_witness :
    (Opts.mk none none none CallbackKind.noCallback).signals = none ∧
    subscribedSignals (defaults (Opts.mk none none none CallbackKind.noCallback)) =
      ["SIGINT", "SIGTERM"] :=
  ⟨rfl, (default_options (Opts.mk none none none CallbackKind.noCallback)
    rfl rfl rfl).1⟩

/-- C10: the library never destroys a busy connection's socket: every
destruction it ever records happened with the socket marked idle, and
the `destroy` helper is a no-op on a busy socket. -/
theorem never_destroys_busy_socket (options : Options) (es : List Event) :
    (∀ p ∈ (run options initState es).destroyedLog, p.2 = true) ∧
    (∀ (s : SysState) (socket : Socket), socket._isIdle = false →
        destroy s socket = s) := by
  constructor
  · exact idleLogInv_run options es initState
      (fun p hp => absurd hp (by simp [initState, IdleLogInv]))
  · intro s socket h
    unfold destroy
    rw [h]
    simp

/-- Witness for C10: the one destruction performed when an idle
connection is swept is recorded as idle. -/
theorem never_destroys_busy_socket_witness :
    (0, true) ∈ (run (cfgGraceful CallbackKind.noCallback) initState
        [Event.connectionOpened, Event.trigger]).destroyedLog ∧
    ((0, true) : Nat × Bool).2 = true :=
  ⟨by decide,
    (never_destroys_busy_socket (cfgGraceful CallbackKind.noCallback)
      [Event.connectionOpened, Event.trigger]).1 (0, true) (by decide)⟩

end GS
